import Mathlib

/-!
Shallow embedding of the researcher recommendation engine in
`recommend_researchers.py` (class `ResearcherRecommendationEngine`).

Conventions of the embedding:
* Python floats are modelled as rationals (`ℚ`); all score arithmetic in the
  source is plain `+ * /` on floats, so the rational model is the exact
  idealisation of the score algebra.
* The TF-IDF cosine similarity of two texts under the locally fitted title
  vectorizer is an opaque numeric function `sim : String → String → ℚ`; the
  engine only ever consumes similarity values, never vector internals.  The
  precomputed matrix row used at `recommend_researchers.py:192` equals the
  `transform` of the same title used at `recommend_researchers.py:146`, so a
  single function models both call sites.
* The theme classifier (`_get_top_predicted_themes`) is an opaque
  `predict : String → List String` returning the ranked label list.
* `pandas` dictionaries are modelled as insertion-ordered association lists
  with update-in-place semantics, matching Python `dict`.
-/

/-- Python `str.lower()` on a title (ASCII case folding suffices here). -/
def lowerStr (s : String) : String :=
  String.map Char.toLower s

/-- The double-quote character, written via its code point. -/
def dquoteChar : Char := Char.ofNat 34

/-- The single-quote character, written via its code point. -/
def squoteChar : Char := Char.ofNat 39

/-- Python `str.strip(c)` for a single character `c`: remove every leading and
trailing occurrence of `c`. -/
def stripChar (c : Char) (s : String) : String :=
  ⟨((s.data.dropWhile (· == c)).reverse.dropWhile (· == c)).reverse⟩

/-- Python `str.strip()`: remove leading and trailing whitespace. -/
def stripWs (s : String) : String := s.trim

/-- The normalisation applied to both titles in `_is_exact_match`
(`recommend_researchers.py:136-137`): `title.lower().strip(dquote).strip(squote)`. -/
def normalizeTitle (s : String) : String :=
  stripChar squoteChar (stripChar dquoteChar (lowerStr s))

/-- One data row of the grants table after `_load_grants_data` column cleanup.
The `researchers` cell is `Option String`: `none` models a missing (pandas
`NaN`) cell, which `str(...)` renders as the string `"nan"` at
`recommend_researchers.py:91`. -/
structure GrantRow where
  title : String
  theme : String
  year : Int
  researchers : Option String
deriving DecidableEq, Repr

/-- Python `str(cell)` on a possibly missing table cell: `NaN` prints `"nan"`. -/
def cellStr : Option String → String
  | none => "nan"
  | some s => s

/-- One entry of `profile['projects']` (`recommend_researchers.py:104-109`). -/
structure Project where
  title : String
  theme : String
  year : Int
  contribution : ℚ
deriving DecidableEq, Repr

/-- One value of `self.researcher_profiles` (`recommend_researchers.py:97-102`). -/
structure Profile where
  projects : List Project
  themes : List String
  themeCounts : List (String × Nat)
  titles : List String
deriving DecidableEq, Repr

/-- The fresh profile created for an unseen researcher
(`recommend_researchers.py:97-102`). -/
def emptyProfile : Profile := ⟨[], [], [], []⟩

/-- Python `theme_counts[t] = theme_counts.get(t, 0) + 1`
(`recommend_researchers.py:112-113`): update in place, else append. -/
def bumpCount : List (String × Nat) → String → List (String × Nat)
  | [], th => [(th, 1)]
  | (k, v) :: rest, th =>
    if k = th then (k, v + 1) :: rest else (k, v) :: bumpCount rest th

/-- Appending one grant record to a researcher's profile
(`recommend_researchers.py:104-113`). -/
def addProjectToProfile (prof : Profile) (row : GrantRow) (contribution : ℚ) : Profile :=
  { projects := prof.projects ++ [⟨row.title, row.theme, row.year, contribution⟩]
    themes := prof.themes ++ [row.theme]
    themeCounts := bumpCount prof.themeCounts row.theme
    titles := prof.titles ++ [row.title] }

/-- Parsing of a researchers cell (`recommend_researchers.py:91`):
split on commas, strip whitespace, strip single quotes. -/
def parseResearchers (s : String) : List String :=
  (s.splitOn ",").map (fun r => stripChar squoteChar (stripWs r))

/-- Python-dict update of the profiles map at one researcher: create the entry
if absent (`recommend_researchers.py:96-102`), then append the project
(`recommend_researchers.py:104-113`). -/
def insertProject : List (String × Profile) → String → GrantRow → ℚ → List (String × Profile)
  | [], name, row, c => [(name, addProjectToProfile emptyProfile row c)]
  | (k, p) :: rest, name, row, c =>
    if k = name then (k, addProjectToProfile p row c) :: rest
    else (k, p) :: insertProject rest name row c

/-- The body of the row loop of `_build_researcher_profiles`
(`recommend_researchers.py:90-113`): parse the researchers cell, give every
co-author the identical share `100 / N`, and append the record to each
co-author's profile. -/
def processRow (profiles : List (String × Profile)) (row : GrantRow) : List (String × Profile) :=
  let researchers := parseResearchers (cellStr row.researchers)
  let contribution : ℚ := 100 / (researchers.length : ℚ)
  researchers.foldl (fun ps name => insertProject ps name row contribution) profiles

/-- `_build_researcher_profiles` (`recommend_researchers.py:85-113`). -/
def buildResearcherProfiles (rows : List GrantRow) : List (String × Profile) :=
  rows.foldl processRow []

/-- `_is_exact_match` (`recommend_researchers.py:130-154`) with a similarity
function that never raises: normalised string equality gives `(true, 1.0)`,
else cosine similarity at or above the threshold gives `(true, sim)`,
else `(false, 0.0)`. -/
def isExactMatch (sim : String → String → ℚ) (inputTitle existingTitle : String)
    (threshold : ℚ) : Bool × ℚ :=
  if normalizeTitle inputTitle = normalizeTitle existingTitle then (true, 1)
  else if sim inputTitle existingTitle ≥ threshold then (true, sim inputTitle existingTitle)
  else (false, 0)

/-- Python `max` of a nonempty list (the `[]` case is never reached where this
is used, mirroring the `if similarities:` guard). -/
def listMaxQ : List ℚ → ℚ
  | [] => 0
  | x :: xs => xs.foldl max x

/-- The title loop of `_calculate_researcher_score`
(`recommend_researchers.py:189-200`).  State: the `similarities` list, the
running `max_similarity`, and the `exact_match_found` flag.  A title absent
from `title_to_idx` is skipped entirely. -/
def simLoop (sim : String → String → ℚ) (titleIndex : List String) (targetKeywords : String) :
    List String → List ℚ × ℚ × Bool → List ℚ × ℚ × Bool
  | [], st => st
  | title :: rest, (sims, maxSim, exactFound) =>
    if title ∈ titleIndex then
      if (isExactMatch sim targetKeywords title (17 / 20)).1 then
        simLoop sim titleIndex targetKeywords rest
          (sims ++ [sim targetKeywords title],
           max maxSim (isExactMatch sim targetKeywords title (17 / 20)).2, true)
      else
        simLoop sim titleIndex targetKeywords rest
          (sims ++ [sim targetKeywords title], maxSim, exactFound)
    else
      simLoop sim titleIndex targetKeywords rest (sims, maxSim, exactFound)

/-- The keyword component of `_calculate_researcher_score`
(`recommend_researchers.py:181-217`): guarded by truthiness of the input title
and the title list, then the three-tier multiplier on the final
`max_similarity`. -/
def keywordScoreOf (sim : String → String → ℚ) (titleIndex : List String)
    (targetKeywords : String) (titles : List String) : ℚ :=
  if targetKeywords ≠ "" ∧ titles ≠ [] then
    let st := simLoop sim titleIndex targetKeywords titles ([], 0, false)
    let m := if st.1 ≠ [] then max st.2.1 (listMaxQ st.1) else st.2.1
    if st.2.2 then m * 200
    else if m > 7 / 10 then m * 150
    else m * 100
  else 0

/-- The contribution component (`recommend_researchers.py:221-228`):
mean contribution over the projects in the target theme, scaled by `/100 * 20`. -/
def contributionScoreOf (projects : List Project) (targetTheme : String) : ℚ :=
  let themeProjects := projects.filter (fun p => p.theme = targetTheme)
  if themeProjects ≠ [] then
    ((themeProjects.map (fun p => p.contribution)).sum / (themeProjects.length : ℚ)) / 100 * 20
  else 0

/-- The recency component (`recommend_researchers.py:230-234`):
5 points per project with `year ≥ current_year - 3`. -/
def recencyScoreOf (projects : List Project) (currentYear : Int) : ℚ :=
  let recentProjects := projects.filter (fun p => currentYear - 3 ≤ p.year)
  if recentProjects ≠ [] then (recentProjects.length : ℚ) * 5 else 0

/-- The score breakdown dictionary built by `_calculate_researcher_score`. -/
structure Breakdown where
  themeMatches : Nat
  themeScore : ℚ
  keywordScore : ℚ
  contributionScore : ℚ
  recencyScore : ℚ
  totalScore : ℚ
deriving DecidableEq, Repr

/-- `_calculate_researcher_score` (`recommend_researchers.py:156-241`).
Returns the pair `(total_score, breakdown)`; a researcher absent from the
profiles map gets the all-zero breakdown (`recommend_researchers.py:163-170`). -/
def calculateResearcherScore (sim : String → String → ℚ) (titleIndex : List String)
    (currentYear : Int) (profiles : List (String × Profile))
    (researcher targetTheme targetKeywords : String) : ℚ × Breakdown :=
  match profiles.lookup researcher with
  | none => (0, ⟨0, 0, 0, 0, 0, 0⟩)
  | some profile =>
    let themeMatches := (profile.themeCounts.lookup targetTheme).getD 0
    let themeScore : ℚ := (themeMatches : ℚ) * 10
    let keywordScore := keywordScoreOf sim titleIndex targetKeywords profile.titles
    let contributionScore := contributionScoreOf profile.projects targetTheme
    let recencyScore := recencyScoreOf profile.projects currentYear
    let totalScore := themeScore + keywordScore + contributionScore + recencyScore
    (totalScore, ⟨themeMatches, themeScore, keywordScore, contributionScore, recencyScore, totalScore⟩)

/-- The engine state assembled by `__init__`: the profiles map
(`_build_researcher_profiles`), the keys of `title_to_idx`
(`recommend_researchers.py:120`), and `current_year`. -/
structure Engine where
  profiles : List (String × Profile)
  titleIndex : List String
  currentYear : Int
deriving DecidableEq, Repr

/-- Engine construction over already-loaded grant rows: build the researcher
profiles and the title index (`recommend_researchers.py:40-44,115-120`). -/
def mkEngine (rows : List GrantRow) (currentYear : Int) : Engine :=
  ⟨buildResearcherProfiles rows, rows.map (fun r => r.title), currentYear⟩

/-- One entry of the `recommendations` list (`recommend_researchers.py:265-271`). -/
structure RecEntry where
  researcher : String
  score : ℚ
  breakdown : Breakdown
  projects : Nat
  themeProjects : Nat
deriving DecidableEq, Repr

/-- The result dictionary of `recommend` (`recommend_researchers.py:277-282`). -/
structure RecResult where
  projectTitle : String
  predictedTheme : String
  recommendations : List RecEntry
  totalResearchersScored : Nat
deriving DecidableEq, Repr

/-- Theme resolution at the head of `recommend`
(`recommend_researchers.py:256-258`): an explicit theme is used verbatim,
otherwise the classifier's top label, defaulting to `"Unknown"`. -/
def resolveTheme (predict : String → List String) (projectTitle : String)
    (targetTheme : Option String) : String :=
  match targetTheme with
  | some t => t
  | none =>
    match predict projectTitle with
    | [] => "Unknown"
    | t :: _ => t

/-- The body of the scoring loop of `recommend`, iterating over the entries of
the profiles map while scoring against the full map `allProfiles`
(`recommend_researchers.py:261-271`). -/
def scoreCandidatesAux (sim : String → String → ℚ) (titleIndex : List String)
    (currentYear : Int) (allProfiles : List (String × Profile))
    (entries : List (String × Profile)) (targetTheme targetKeywords : String) : List RecEntry :=
  entries.filterMap (fun pr =>
    let sb := calculateResearcherScore sim titleIndex currentYear
      allProfiles pr.1 targetTheme targetKeywords
    if sb.1 > 0 then
      some ⟨pr.1, sb.1, sb.2, pr.2.projects.length, sb.2.themeMatches⟩
    else none)

/-- The scoring loop of `recommend` (`recommend_researchers.py:261-271`):
score every researcher in the profiles map and keep those with `score > 0`. -/
def scoreCandidates (sim : String → String → ℚ) (engine : Engine)
    (targetTheme targetKeywords : String) : List RecEntry :=
  scoreCandidatesAux sim engine.titleIndex engine.currentYear engine.profiles
    engine.profiles targetTheme targetKeywords

/-- Descending-score order used by `recommendations.sort(key=score, reverse=True)`. -/
def recLE (a b : RecEntry) : Prop := b.score ≤ a.score

instance : DecidableRel recLE := fun a b => inferInstanceAs (Decidable (b.score ≤ a.score))

instance : IsTotal RecEntry recLE := ⟨fun a b => le_total b.score a.score⟩

instance : IsTrans RecEntry recLE := ⟨fun _ _ _ h1 h2 => le_trans h2 h1⟩

/-- The candidate list after the stable descending sort
(`recommend_researchers.py:274`). -/
def rankCandidates (sim : String → String → ℚ) (engine : Engine)
    (targetTheme targetKeywords : String) : List RecEntry :=
  List.insertionSort recLE (scoreCandidates sim engine targetTheme targetKeywords)

/-- `recommend` (`recommend_researchers.py:243-282`): resolve the theme, score
and filter all researchers, sort descending, return the top `topN` slice and
the size of the full filtered list. -/
def recommend (sim : String → String → ℚ) (predict : String → List String)
    (engine : Engine) (projectTitle : String) (targetTheme : Option String)
    (topN : Nat) : RecResult :=
  let theme := resolveTheme predict projectTitle targetTheme
  let ranked := rankCandidates sim engine theme projectTitle
  ⟨projectTitle, theme, ranked.take topN, ranked.length⟩

/-! ## Spec-side formulations used by the claims -/

/-- Spec-side: the historical titles flagged by near-duplicate detection
against the input title at the documented threshold `0.85`. -/
def specNearDups (sim : String → String → ℚ) (targetKeywords : String)
    (titles : List String) : List String :=
  titles.filter (fun t => (isExactMatch sim targetKeywords t (17 / 20)).1)

/-- Spec-side: the similarity `m` of §4.4 step 2 — the maximum cosine
similarity over the historical titles, additionally maxed with every
near-duplicate match score found. -/
def specMaxSim (sim : String → String → ℚ) (targetKeywords : String)
    (titles : List String) : ℚ :=
  max (((specNearDups sim targetKeywords titles).map
          (fun t => (isExactMatch sim targetKeywords t (17 / 20)).2)).foldl max 0)
    (listMaxQ (titles.map (sim targetKeywords)))

/-! ## Concrete fixtures used by witnesses -/

/-- A one-row corpus: one grant with two co-authors. -/
def rowsW : List GrantRow := [⟨"T", "Th", 2024, some "Alice, Bob"⟩]

/-- The profile the engine builds for Alice (and Bob) from `rowsW`. -/
def profW : Profile := ⟨[⟨"T", "Th", 2024, 50⟩], ["Th"], [("Th", 1)], ["T"]⟩

/-- A similarity function giving the corpus title exactly 0.7 similarity. -/
def simW : String → String → ℚ := fun _ t => if t = "T" then 7 / 10 else 0

/-- The engine over `rowsW` at current year 2026. -/
def engineW : Engine := mkEngine rowsW 2026

/-- A stub classifier. -/
def predW : String → List String := fun _ => ["Th"]

/-- The recommendation entry produced for Alice by
`recommend simW predW engineW "X" (some "Th") 5`:
theme 10, keyword 70, contribution 10, recency 5. -/
def entryW : RecEntry := ⟨"Alice", 95, ⟨1, 10, 70, 10, 5, 95⟩, 1, 1⟩

/-- The profile-building invariant: every stored project of every researcher
comes from some corpus row naming that researcher, with the equal share
`100 / N` of that row. -/
def profilesInvariant (rows : List GrantRow) (acc : List (String × Profile)) : Prop :=
  ∀ name prof, acc.lookup name = some prof → ∀ pj ∈ prof.projects,
    ∃ row ∈ rows, name ∈ parseResearchers (cellStr row.researchers)
      ∧ pj = ⟨row.title, row.theme, row.year,
              100 / ((parseResearchers (cellStr row.researchers)).length : ℚ)⟩

/-- A well-formed corpus row. -/
def rowGoodW : GrantRow := ⟨"Quantum Error Correction", "Quantum", 2024, some "Alice Smith, Bob Lee"⟩

/-- A corpus row whose researchers cell is missing (pandas `NaN`). -/
def rowNanW : GrantRow := ⟨"Orphan Title", "Quantum", 2023, none⟩

/-- A profile holding the all-stop-words corpus title `"the"`. -/
def profC9 : Profile := ⟨[⟨"the", "Quantum", 2024, 100⟩], ["Quantum"], [("Quantum", 1)], ["the"]⟩

/-- An all-zero similarity function: the model of an input title whose feature
vector is all-zero (cosine with a zero vector is 0). -/
def simZeroW : String → String → ℚ := fun _ _ => 0

/-- `_is_exact_match` with a fallible similarity primitive: the semantic
similarity block sits inside `try/except: pass`
(`recommend_researchers.py:143-152`), so a raised exception falls through to
`(False, 0.0)` — the function itself never raises. -/
def isExactMatchE (simE : String → String → Except Unit ℚ)
    (inputTitle existingTitle : String) (threshold : ℚ) : Bool × ℚ :=
  if normalizeTitle inputTitle = normalizeTitle existingTitle then (true, 1)
  else
    match simE inputTitle existingTitle with
    | Except.ok s => if s ≥ threshold then (true, s) else (false, 0)
    | Except.error _ => (false, 0)

/-- The title loop with a fallible similarity primitive: the direct cosine
computation at `recommend_researchers.py:193` is not guarded, so its exception
propagates; the near-duplicate check cannot raise. -/
def simLoopE (simE : String → String → Except Unit ℚ) (titleIndex : List String)
    (targetKeywords : String) :
    List String → List ℚ × ℚ × Bool → Except Unit (List ℚ × ℚ × Bool)
  | [], st => Except.ok st
  | title :: rest, (sims, maxSim, exactFound) =>
    if title ∈ titleIndex then
      match simE targetKeywords title with
      | Except.error e => Except.error e
      | Except.ok s =>
        if (isExactMatchE simE targetKeywords title (17 / 20)).1 then
          simLoopE simE titleIndex targetKeywords rest
            (sims ++ [s], max maxSim (isExactMatchE simE targetKeywords title (17 / 20)).2, true)
        else
          simLoopE simE titleIndex targetKeywords rest (sims ++ [s], maxSim, exactFound)
    else
      simLoopE simE titleIndex targetKeywords rest (sims, maxSim, exactFound)

/-- The keyword component with a fallible similarity primitive. -/
def keywordScoreOfE (simE : String → String → Except Unit ℚ) (titleIndex : List String)
    (targetKeywords : String) (titles : List String) : Except Unit ℚ :=
  if targetKeywords ≠ "" ∧ titles ≠ [] then
    match simLoopE simE titleIndex targetKeywords titles ([], 0, false) with
    | Except.error e => Except.error e
    | Except.ok st =>
      Except.ok
        (if st.2.2 then (if st.1 ≠ [] then max st.2.1 (listMaxQ st.1) else st.2.1) * 200
         else if (if st.1 ≠ [] then max st.2.1 (listMaxQ st.1) else st.2.1) > 7 / 10 then
           (if st.1 ≠ [] then max st.2.1 (listMaxQ st.1) else st.2.1) * 150
         else (if st.1 ≠ [] then max st.2.1 (listMaxQ st.1) else st.2.1) * 100)
  else Except.ok 0

/-- `_calculate_researcher_score` with a fallible similarity primitive:
only the keyword block can raise, and it is not wrapped in any handler. -/
def calculateResearcherScoreE (simE : String → String → Except Unit ℚ)
    (titleIndex : List String) (currentYear : Int)
    (profiles : List (String × Profile)) (researcher targetTheme targetKeywords : String) :
    Except Unit (ℚ × Breakdown) :=
  match profiles.lookup researcher with
  | none => Except.ok (0, ⟨0, 0, 0, 0, 0, 0⟩)
  | some profile =>
    match keywordScoreOfE simE titleIndex targetKeywords profile.titles with
    | Except.error e => Except.error e
    | Except.ok keywordScore =>
      Except.ok
        (((profile.themeCounts.lookup targetTheme).getD 0 : ℚ) * 10 + keywordScore
            + contributionScoreOf profile.projects targetTheme
            + recencyScoreOf profile.projects currentYear,
         ⟨(profile.themeCounts.lookup targetTheme).getD 0,
          ((profile.themeCounts.lookup targetTheme).getD 0 : ℚ) * 10,
          keywordScore,
          contributionScoreOf profile.projects targetTheme,
          recencyScoreOf profile.projects currentYear,
          ((profile.themeCounts.lookup targetTheme).getD 0 : ℚ) * 10 + keywordScore
            + contributionScoreOf profile.projects targetTheme
            + recencyScoreOf profile.projects currentYear⟩)

/-- The candidate loop of `recommend` with a fallible similarity primitive:
the first researcher whose scoring raises aborts the whole call. -/
def scoreCandidatesAuxE (simE : String → String → Except Unit ℚ)
    (titleIndex : List String) (currentYear : Int)
    (allProfiles : List (String × Profile)) (targetTheme targetKeywords : String) :
    List (String × Profile) → Except Unit (List RecEntry)
  | [] => Except.ok []
  | pr :: rest =>
    match calculateResearcherScoreE simE titleIndex currentYear allProfiles
        pr.1 targetTheme targetKeywords with
    | Except.error e => Except.error e
    | Except.ok sb =>
      match scoreCandidatesAuxE simE titleIndex currentYear allProfiles
          targetTheme targetKeywords rest with
      | Except.error e => Except.error e
      | Except.ok restEntries =>
        Except.ok
          (if sb.1 > 0 then
            ⟨pr.1, sb.1, sb.2, pr.2.projects.length, sb.2.themeMatches⟩ :: restEntries
          else restEntries)

/-- `recommend` with a fallible similarity primitive: no handler anywhere on
the scoring path, so a similarity exception reaches the caller. -/
def recommendE (simE : String → String → Except Unit ℚ) (predict : String → List String)
    (engine : Engine) (projectTitle : String) (targetTheme : Option String)
    (topN : Nat) : Except Unit RecResult :=
  match scoreCandidatesAuxE simE engine.titleIndex engine.currentYear engine.profiles
      (resolveTheme predict projectTitle targetTheme) projectTitle engine.profiles with
  | Except.error e => Except.error e
  | Except.ok cands =>
    Except.ok ⟨projectTitle, resolveTheme predict projectTitle targetTheme,
      (List.insertionSort recLE cands).take topN, (List.insertionSort recLE cands).length⟩

/-- An always-raising similarity primitive. -/
def simFailE : String → String → Except Unit ℚ := fun _ _ => Except.error ()

/-- A one-researcher engine whose single historical title is indexed. -/
def engineC6 : Engine :=
  ⟨[("Ann", ⟨[⟨"Known Title", "Quantum", 2024, 100⟩], ["Quantum"], [("Quantum", 1)],
      ["Known Title"]⟩)], ["Known Title"], 2026⟩

/-! ## General lemmas about the scoring pipeline -/

/-- Unfolding of `_calculate_researcher_score` at a present researcher. -/
theorem calcScore_lookup_some (sim : String → String → ℚ) (idx : List String) (y : Int)
    (profiles : List (String × Profile)) (r th k : String) (p : Profile)
    (hp : profiles.lookup r = some p) :
    calculateResearcherScore sim idx y profiles r th k =
      (((p.themeCounts.lookup th).getD 0 : ℚ) * 10 + keywordScoreOf sim idx k p.titles
          + contributionScoreOf p.projects th + recencyScoreOf p.projects y,
       ⟨(p.themeCounts.lookup th).getD 0,
        ((p.themeCounts.lookup th).getD 0 : ℚ) * 10,
        keywordScoreOf sim idx k p.titles,
        contributionScoreOf p.projects th,
        recencyScoreOf p.projects y,
        ((p.themeCounts.lookup th).getD 0 : ℚ) * 10 + keywordScoreOf sim idx k p.titles
          + contributionScoreOf p.projects th + recencyScoreOf p.projects y⟩) := by
  simp [calculateResearcherScore, hp]

/-- The breakdown total is the sum of the four components, and the returned
scalar equals the breakdown total, in both branches of the function. -/
theorem calcScore_total_eq (sim : String → String → ℚ) (idx : List String) (y : Int)
    (profiles : List (String × Profile)) (r th k : String) :
    (calculateResearcherScore sim idx y profiles r th k).2.totalScore
        = (calculateResearcherScore sim idx y profiles r th k).2.themeScore
          + (calculateResearcherScore sim idx y profiles r th k).2.keywordScore
          + (calculateResearcherScore sim idx y profiles r th k).2.contributionScore
          + (calculateResearcherScore sim idx y profiles r th k).2.recencyScore
      ∧ (calculateResearcherScore sim idx y profiles r th k).1
        = (calculateResearcherScore sim idx y profiles r th k).2.totalScore := by
  cases hp : profiles.lookup r with
  | none => simp [calculateResearcherScore, hp]
  | some p => rw [calcScore_lookup_some sim idx y profiles r th k p hp]; exact ⟨rfl, rfl⟩

/-- Membership in the filtered candidate loop comes from a profile entry with
a strictly positive score. -/
theorem mem_scoreCandidatesAux {sim : String → String → ℚ} {idx : List String} {y : Int}
    {allP entries : List (String × Profile)} {th k : String} {e : RecEntry}
    (he : e ∈ scoreCandidatesAux sim idx y allP entries th k) :
    ∃ pr ∈ entries,
      0 < (calculateResearcherScore sim idx y allP pr.1 th k).1
      ∧ e = ⟨pr.1, (calculateResearcherScore sim idx y allP pr.1 th k).1,
             (calculateResearcherScore sim idx y allP pr.1 th k).2,
             pr.2.projects.length,
             (calculateResearcherScore sim idx y allP pr.1 th k).2.themeMatches⟩ := by
  obtain ⟨pr, hpr, hf⟩ := List.mem_filterMap.mp he
  refine ⟨pr, hpr, ?_⟩
  by_cases hpos : 0 < (calculateResearcherScore sim idx y allP pr.1 th k).1
  · refine ⟨hpos, ?_⟩
    simp only [gt_iff_lt, if_pos hpos] at hf
    exact (Option.some_inj.mp hf).symm
  · simp only [gt_iff_lt, if_neg hpos] at hf
    exact absurd hf (by simp)

/-- Every recommendation entry originates from a positively scored profile
entry of the engine. -/
theorem mem_recommendations {sim : String → String → ℚ} {predict : String → List String}
    {engine : Engine} {title : String} {th? : Option String} {n : Nat} {e : RecEntry}
    (he : e ∈ (recommend sim predict engine title th? n).recommendations) :
    ∃ pr ∈ engine.profiles,
      0 < (calculateResearcherScore sim engine.titleIndex engine.currentYear engine.profiles
            pr.1 (resolveTheme predict title th?) title).1
      ∧ e = ⟨pr.1,
             (calculateResearcherScore sim engine.titleIndex engine.currentYear engine.profiles
               pr.1 (resolveTheme predict title th?) title).1,
             (calculateResearcherScore sim engine.titleIndex engine.currentYear engine.profiles
               pr.1 (resolveTheme predict title th?) title).2,
             pr.2.projects.length,
             (calculateResearcherScore sim engine.titleIndex engine.currentYear engine.profiles
               pr.1 (resolveTheme predict title th?) title).2.themeMatches⟩ := by
  have h1 : e ∈ rankCandidates sim engine (resolveTheme predict title th?) title :=
    List.mem_of_mem_take he
  have h2 : e ∈ scoreCandidates sim engine (resolveTheme predict title th?) title :=
    (List.mem_insertionSort recLE).mp h1
  exact mem_scoreCandidatesAux h2


/-! ## C2 -/

/-- C2: `isNearDuplicate` (source `_is_exact_match`) at threshold `0.85` first
compares the titles after lowercasing and stripping wrapping quote characters
and returns `(true, 1.0)` on equality; otherwise it returns `(true, s)` when
the cosine similarity `s` meets the threshold (`s ≥ 0.85`), and `(false, 0.0)`
otherwise. -/
theorem isNearDuplicate_two_stage_check (sim : String → String → ℚ) (a b : String) :
    isExactMatch sim a b (17 / 20) =
      (if normalizeTitle a = normalizeTitle b then (true, 1)
       else if (17 : ℚ) / 20 ≤ sim a b then (true, sim a b)
       else (false, 0))
    ∧ ((isExactMatch sim a b (17 / 20)).1 = true ↔
        (normalizeTitle a = normalizeTitle b ∨ (17 : ℚ) / 20 ≤ sim a b)) := by
  constructor
  · simp only [isExactMatch, ge_iff_le]
  · simp only [isExactMatch, ge_iff_le]
    by_cases h1 : normalizeTitle a = normalizeTitle b
    · simp [h1]
    · by_cases h2 : (17 : ℚ) / 20 ≤ sim a b <;> simp [h1, h2]

/-! ## C3 -/

/-- C3: for every researcher scored by `recommend`, the reported total score
equals `themeScore + keywordScore + contributionScore + recencyScore` exactly,
and the scalar score in the entry equals the breakdown total. -/
theorem totalScore_equals_component_sum (sim : String → String → ℚ)
    (predict : String → List String) (engine : Engine) (title : String)
    (th? : Option String) (n : Nat) (e : RecEntry)
    (he : e ∈ (recommend sim predict engine title th? n).recommendations) :
    e.breakdown.totalScore
        = e.breakdown.themeScore + e.breakdown.keywordScore
          + e.breakdown.contributionScore + e.breakdown.recencyScore
      ∧ e.score = e.breakdown.totalScore := by
  obtain ⟨pr, _, hpos, he⟩ := mem_recommendations he
  subst he
  have h := calcScore_total_eq sim engine.titleIndex engine.currentYear engine.profiles
    pr.1 (resolveTheme predict title th?) title
  exact ⟨h.1, h.2⟩

/-- Witness for C3 at the concrete fixture: Alice's entry satisfies the sum. -/
theorem totalScore_equals_component_sum_witness :
    entryW.breakdown.totalScore
        = entryW.breakdown.themeScore + entryW.breakdown.keywordScore
          + entryW.breakdown.contributionScore + entryW.breakdown.recencyScore
      ∧ entryW.score = entryW.breakdown.totalScore :=
  totalScore_equals_component_sum simW predW engineW "X" (some "Th") 5 entryW
    (by with_unfolding_all decide)

/-! ## C1 -/

/-- Characterisation of the title loop when every profile title is present in
the title index: the similarity list collects all raw similarities, the
running maximum folds the match scores of the near-duplicates, and the flag
records whether any near-duplicate was found. -/
theorem simLoop_spec (sim : String → String → ℚ) (idx : List String) (k : String) :
    ∀ (ts : List String) (sims : List ℚ) (m : ℚ) (ex : Bool),
      (∀ t ∈ ts, t ∈ idx) →
      simLoop sim idx k ts (sims, m, ex) =
        (sims ++ ts.map (sim k),
         (ts.filter (fun t => (isExactMatch sim k t (17 / 20)).1)).foldl
           (fun acc t => max acc (isExactMatch sim k t (17 / 20)).2) m,
         ex || ts.any (fun t => (isExactMatch sim k t (17 / 20)).1)) := by
  intro ts
  induction ts with
  | nil => intro sims m ex _; simp [simLoop]
  | cons t rest ih =>
    intro sims m ex h
    have ht : t ∈ idx := h t (List.mem_cons_self t rest)
    have hrest : ∀ x ∈ rest, x ∈ idx := fun x hx => h x (List.mem_cons_of_mem t hx)
    by_cases hm : (isExactMatch sim k t (17 / 20)).1 = true
    · simp only [simLoop, if_pos ht, hm, eq_self_iff_true, if_true,
        ih _ _ _ hrest, List.map_cons, List.filter_cons, List.any_cons,
        List.foldl_cons, List.append_assoc, List.singleton_append,
        Bool.true_or, Bool.or_true]
    · have hm' : (isExactMatch sim k t (17 / 20)).1 = false := by
        simpa using hm
      simp only [simLoop, if_pos ht, hm', Bool.false_eq_true, if_false,
        ih _ _ _ hrest, List.map_cons, List.filter_cons, List.any_cons,
        List.append_assoc, List.singleton_append, Bool.false_or]

/-- The keyword component, rewritten through the spec-side quantities when the
guards are live and every title is indexed. -/
theorem keywordScoreOf_spec (sim : String → String → ℚ) (idx : List String)
    (k : String) (ts : List String) (hk : k ≠ "") (ht : ts ≠ [])
    (hidx : ∀ t ∈ ts, t ∈ idx) :
    keywordScoreOf sim idx k ts =
      (if specNearDups sim k ts ≠ [] then specMaxSim sim k ts * 200
       else if 7 / 10 < specMaxSim sim k ts then specMaxSim sim k ts * 150
       else specMaxSim sim k ts * 100) := by
  have hmap : ts.map (sim k) ≠ [] := by
    simpa using ht
  have hloop := simLoop_spec sim idx k ts [] 0 false hidx
  have hfold :
      (ts.filter (fun t => (isExactMatch sim k t (17 / 20)).1)).foldl
          (fun acc t => max acc (isExactMatch sim k t (17 / 20)).2) 0
        = ((specNearDups sim k ts).map
            (fun t => (isExactMatch sim k t (17 / 20)).2)).foldl max 0 := by
    rw [List.foldl_map]
    rfl
  have hany : (ts.any (fun t => (isExactMatch sim k t (17 / 20)).1) = true)
      ↔ specNearDups sim k ts ≠ [] := by
    constructor
    · intro h
      obtain ⟨x, hx, hpx⟩ := List.any_eq_true.mp h
      exact List.ne_nil_of_mem (List.mem_filter.mpr ⟨hx, hpx⟩)
    · intro h
      obtain ⟨x, hx⟩ := List.exists_mem_of_ne_nil _ h
      have := List.mem_filter.mp hx
      exact List.any_eq_true.mpr ⟨x, this.1, this.2⟩
  rw [keywordScoreOf, if_pos ⟨hk, ht⟩, hloop]
  simp only [List.nil_append, Bool.false_or, if_pos hmap]
  rw [hfold]
  by_cases hd : specNearDups sim k ts ≠ []
  · rw [if_pos (hany.mpr hd), if_pos hd]
    rfl
  · have hfalse : ts.any (fun t => (isExactMatch sim k t (17 / 20)).1) = false := by
      by_contra hcon
      exact hd (hany.mp (by simpa using hcon))
    rw [hfalse, if_neg (by simp), if_neg hd]
    rfl

/-- C1: for every researcher with a non-empty profile and a non-empty title
list (whose titles are all indexed), the keyword component is the three-tier
multiplier applied to `m`, the maximum historical cosine similarity maxed with
every near-duplicate match score: near-duplicate found gives `m × 200`, else
`m > 0.7` gives `m × 150`, else `m × 100`; in particular any title with cosine
similarity at least `0.85` forces the near-duplicate tier. -/
theorem keywordScore_three_tier_multiplier (sim : String → String → ℚ)
    (idx : List String) (y : Int) (profiles : List (String × Profile))
    (r th k : String) (p : Profile)
    (hp : profiles.lookup r = some p) (ht : p.titles ≠ []) (hk : k ≠ "")
    (hidx : ∀ t ∈ p.titles, t ∈ idx) :
    ((calculateResearcherScore sim idx y profiles r th k).2.keywordScore =
      (if specNearDups sim k p.titles ≠ [] then specMaxSim sim k p.titles * 200
       else if 7 / 10 < specMaxSim sim k p.titles then specMaxSim sim k p.titles * 150
       else specMaxSim sim k p.titles * 100))
    ∧ ((∃ t ∈ p.titles, (17 : ℚ) / 20 ≤ sim k t) →
        (calculateResearcherScore sim idx y profiles r th k).2.keywordScore
          = specMaxSim sim k p.titles * 200) := by
  have hkw : (calculateResearcherScore sim idx y profiles r th k).2.keywordScore
      = keywordScoreOf sim idx k p.titles := by
    rw [calcScore_lookup_some sim idx y profiles r th k p hp]
  have hmain := keywordScoreOf_spec sim idx k p.titles hk ht hidx
  refine ⟨by rw [hkw, hmain], ?_⟩
  rintro ⟨t, htm, hts⟩
  have hmatch : (isExactMatch sim k t (17 / 20)).1 = true := by
    unfold isExactMatch
    by_cases hnorm : normalizeTitle k = normalizeTitle t
    · rw [if_pos hnorm]
    · rw [if_neg hnorm, if_pos (ge_iff_le.mpr hts)]
  have hne : specNearDups sim k p.titles ≠ [] :=
    List.ne_nil_of_mem (List.mem_filter.mpr ⟨htm, hmatch⟩)
  rw [hkw, hmain, if_pos hne]

/-- Witness for C1 at the documented boundary `m = 0.7` with no
near-duplicate: the multiplier is 100, giving keyword score 70. -/
theorem keywordScore_three_tier_multiplier_witness :
    (calculateResearcherScore simW ["T"] 2026 (buildResearcherProfiles rowsW)
      "Alice" "Th" "X").2.keywordScore = 70 :=
  ((keywordScore_three_tier_multiplier simW ["T"] 2026 (buildResearcherProfiles rowsW)
      "Alice" "Th" "X" profW (by with_unfolding_all rfl) (by with_unfolding_all decide)
      (by with_unfolding_all decide) (by with_unfolding_all decide)).1).trans
    (by with_unfolding_all rfl)

/-! ## C4 and C10 -/

/-- The researchers named in the candidate loop output are exactly the
iterated profile entries with strictly positive score, in order. -/
theorem scoreCandidatesAux_names (sim : String → String → ℚ) (idx : List String)
    (y : Int) (allP : List (String × Profile)) (th k : String) :
    ∀ entries : List (String × Profile),
      (scoreCandidatesAux sim idx y allP entries th k).map (fun e => e.researcher)
        = (entries.filter (fun pr =>
            0 < (calculateResearcherScore sim idx y allP pr.1 th k).1)).map Prod.fst := by
  intro entries
  induction entries with
  | nil => rfl
  | cons pr rest ih =>
    by_cases hpos : 0 < (calculateResearcherScore sim idx y allP pr.1 th k).1
    · simp only [scoreCandidatesAux] at ih
      simp [scoreCandidatesAux, List.filterMap_cons, List.filter_cons, hpos, ih]
    · simp only [scoreCandidatesAux] at ih
      simp [scoreCandidatesAux, List.filterMap_cons, List.filter_cons, hpos, ih]

/-- C4: `recommend` never returns an entry with total score 0: its output is
the `topN` prefix of the ranking, every ranked entry has strictly positive
score, the ranking is sorted by score descending, and the ranked researchers
are exactly (a permutation of) the profile entries with positive score. -/
theorem zero_score_researchers_excluded_ranking_sorted (sim : String → String → ℚ)
    (predict : String → List String) (engine : Engine) (title : String)
    (th? : Option String) (n : Nat) :
    (∀ e ∈ (recommend sim predict engine title th? n).recommendations, 0 < e.score)
    ∧ (recommend sim predict engine title th? n).recommendations
        = (rankCandidates sim engine (resolveTheme predict title th?) title).take n
    ∧ List.Sorted recLE (rankCandidates sim engine (resolveTheme predict title th?) title)
    ∧ List.Perm
        ((rankCandidates sim engine (resolveTheme predict title th?) title).map
          (fun e => e.researcher))
        ((engine.profiles.filter (fun pr =>
            0 < (calculateResearcherScore sim engine.titleIndex engine.currentYear
                  engine.profiles pr.1 (resolveTheme predict title th?) title).1)).map
          Prod.fst) := by
  refine ⟨?_, rfl, List.sorted_insertionSort recLE _, ?_⟩
  · intro e he
    obtain ⟨pr, _, hpos, he⟩ := mem_recommendations he
    subst he
    exact hpos
  · have hperm : List.Perm
        (rankCandidates sim engine (resolveTheme predict title th?) title)
        (scoreCandidates sim engine (resolveTheme predict title th?) title) :=
      List.perm_insertionSort recLE _
    have := hperm.map (fun e => e.researcher)
    rw [scoreCandidates, scoreCandidatesAux_names sim engine.titleIndex engine.currentYear
      engine.profiles (resolveTheme predict title th?) title engine.profiles] at this
    exact this

/-- Witness for C4: the concrete top entry has strictly positive score. -/
theorem zero_score_researchers_excluded_ranking_sorted_witness : 0 < entryW.score :=
  (zero_score_researchers_excluded_ranking_sorted simW predW engineW "X" (some "Th") 5).1
    entryW (by with_unfolding_all decide)

/-- C10: `total_researchers_scored` is the number of researchers with strictly
positive total score (the filtered candidate count), and the returned list is
capped at `topN`, so its length is the minimum of `topN` and that count. -/
theorem totalScored_counts_positive_candidates (sim : String → String → ℚ)
    (predict : String → List String) (engine : Engine) (title : String)
    (th? : Option String) (n : Nat) :
    (recommend sim predict engine title th? n).totalResearchersScored
        = (engine.profiles.filter (fun pr =>
            0 < (calculateResearcherScore sim engine.titleIndex engine.currentYear
                  engine.profiles pr.1 (resolveTheme predict title th?) title).1)).length
    ∧ (recommend sim predict engine title th? n).recommendations.length
        = min n (recommend sim predict engine title th? n).totalResearchersScored := by
  constructor
  · show (rankCandidates sim engine (resolveTheme predict title th?) title).length = _
    rw [rankCandidates, List.length_insertionSort]
    have := congrArg List.length
      (scoreCandidatesAux_names sim engine.titleIndex engine.currentYear engine.profiles
        (resolveTheme predict title th?) title engine.profiles)
    simpa [scoreCandidates] using this
  · show ((rankCandidates sim engine (resolveTheme predict title th?) title).take n).length = _
    rw [List.length_take]
    rfl

/-! ## C8 -/

/-- Lookup after a python-dict profile update: the updated researcher's
profile gains the appended record, everyone else is untouched. -/
theorem lookup_insertProject (acc : List (String × Profile)) (name n' : String)
    (row : GrantRow) (c : ℚ) :
    (insertProject acc name row c).lookup n'
      = if n' = name then
          some (addProjectToProfile ((acc.lookup name).getD emptyProfile) row c)
        else acc.lookup n' := by
  induction acc with
  | nil =>
    by_cases h : n' = name
    · simp [insertProject, List.lookup, h]
    · have hb : (n' == name) = false := by
        rw [beq_eq_false_iff_ne]
        exact h
      simp [insertProject, List.lookup, h, hb]
  | cons e rest ih =>
    obtain ⟨k, p⟩ := e
    by_cases hk : k = name
    · subst hk
      by_cases h : n' = k
      · subst h
        simp [insertProject, List.lookup]
      · have hb : (n' == k) = false := by
          rw [beq_eq_false_iff_ne]
          exact h
        simp [insertProject, List.lookup, h, hb]
    · rw [insertProject, if_neg hk]
      by_cases h : n' = k
      · subst h
        have hname : ¬n' = name := hk
        simp [List.lookup, hname]
      · have hn'k : (n' == k) = false := by
          rw [beq_eq_false_iff_ne]
          exact h
        have hnamek : (name == k) = false := by
          rw [beq_eq_false_iff_ne]
          exact fun hc => hk hc.symm
        simp [List.lookup, hn'k, hnamek, ih]


/-- One dict update preserves the invariant when the inserted record carries
the correct equal share. -/
theorem profilesInvariant_insertProject {rows : List GrantRow}
    {acc : List (String × Profile)} {row : GrantRow} {name : String} {c : ℚ}
    (hinv : profilesInvariant rows acc) (hrow : row ∈ rows)
    (hname : name ∈ parseResearchers (cellStr row.researchers))
    (hc : c = 100 / ((parseResearchers (cellStr row.researchers)).length : ℚ)) :
    profilesInvariant rows (insertProject acc name row c) := by
  intro n prof hl pj hpj
  rw [lookup_insertProject] at hl
  by_cases hn : n = name
  · subst hn
    rw [if_pos rfl] at hl
    have hprof := Option.some_inj.mp hl
    subst hprof
    have hpj' : pj ∈ ((acc.lookup n).getD emptyProfile).projects ∨
        pj = ⟨row.title, row.theme, row.year, c⟩ := by
      simpa [addProjectToProfile] using hpj
    rcases hpj' with hmem | hmem
    · cases hbase : acc.lookup n with
      | none =>
        rw [hbase] at hmem
        simp [emptyProfile] at hmem
      | some p0 =>
        rw [hbase] at hmem
        simp only [Option.getD_some] at hmem
        exact hinv n p0 hbase pj hmem
    · exact ⟨row, hrow, hname, by rw [hmem, hc]⟩
  · rw [if_neg hn] at hl
    exact hinv n prof hl pj hpj

/-- Folding the dict update over any sublist of a row's researchers preserves
the invariant. -/
theorem profilesInvariant_foldl_insert {rows : List GrantRow} {row : GrantRow} {c : ℚ}
    (hrow : row ∈ rows)
    (hc : c = 100 / ((parseResearchers (cellStr row.researchers)).length : ℚ)) :
    ∀ (names : List String), (∀ x ∈ names, x ∈ parseResearchers (cellStr row.researchers)) →
      ∀ acc, profilesInvariant rows acc →
        profilesInvariant rows (names.foldl (fun ps nm => insertProject ps nm row c) acc) := by
  intro names
  induction names with
  | nil => intro _ acc hinv; exact hinv
  | cons nm rest ih =>
    intro hsub acc hinv
    have h1 : nm ∈ parseResearchers (cellStr row.researchers) :=
      hsub nm (List.mem_cons_self nm rest)
    have h2 : ∀ x ∈ rest, x ∈ parseResearchers (cellStr row.researchers) :=
      fun x hx => hsub x (List.mem_cons_of_mem nm hx)
    exact ih h2 (insertProject acc nm row c)
      (profilesInvariant_insertProject hinv hrow h1 hc)

/-- Processing one row preserves the invariant. -/
theorem profilesInvariant_processRow {rows : List GrantRow} {row : GrantRow}
    (hrow : row ∈ rows) {acc : List (String × Profile)}
    (hinv : profilesInvariant rows acc) :
    profilesInvariant rows (processRow acc row) :=
  profilesInvariant_foldl_insert hrow rfl
    (parseResearchers (cellStr row.researchers)) (fun _ hx => hx) acc hinv

/-- Folding the row loop over any sublist of the corpus preserves the
invariant. -/
theorem profilesInvariant_foldl_rows {rows : List GrantRow} :
    ∀ (rows' : List GrantRow), (∀ r ∈ rows', r ∈ rows) →
      ∀ acc, profilesInvariant rows acc →
        profilesInvariant rows (rows'.foldl processRow acc) := by
  intro rows'
  induction rows' with
  | nil => intro _ acc hinv; exact hinv
  | cons row rest ih =>
    intro hsub acc hinv
    exact ih (fun r hr => hsub r (List.mem_cons_of_mem row hr)) (processRow acc row)
      (profilesInvariant_processRow (hsub row (List.mem_cons_self row rest)) hinv)

/-- C8: every stored project of a researcher carries the equal co-author share
`100 / N` of its originating row, and the contribution component is the mean
share over the researcher's projects in the target theme, scaled by
`/ 100 × 20`, and `0` when there is no such project. -/
theorem contribution_share_and_score :
    (∀ (rows : List GrantRow) (name : String) (prof : Profile),
        (buildResearcherProfiles rows).lookup name = some prof →
        ∀ pj ∈ prof.projects, ∃ row ∈ rows,
          name ∈ parseResearchers (cellStr row.researchers)
          ∧ pj.contribution = 100 / ((parseResearchers (cellStr row.researchers)).length : ℚ))
    ∧ (∀ (sim : String → String → ℚ) (idx : List String) (y : Int)
        (profiles : List (String × Profile)) (r th k : String) (p : Profile),
        profiles.lookup r = some p →
        (calculateResearcherScore sim idx y profiles r th k).2.contributionScore
          = (if p.projects.filter (fun pr => pr.theme = th) = [] then 0
             else (((p.projects.filter (fun pr => pr.theme = th)).map
                      (fun pr => pr.contribution)).sum
                    / ((p.projects.filter (fun pr => pr.theme = th)).length : ℚ)) / 100 * 20)) := by
  constructor
  · intro rows name prof hl pj hpj
    have hempty : profilesInvariant rows [] := by
      intro n p h
      simp [List.lookup] at h
    have hinv := profilesInvariant_foldl_rows rows (fun _ h => h) [] hempty
    obtain ⟨row, hrow, hname, hpj'⟩ := hinv name prof hl pj hpj
    exact ⟨row, hrow, hname, by rw [hpj']⟩
  · intro sim idx y profiles r th k p hp
    rw [calcScore_lookup_some sim idx y profiles r th k p hp]
    by_cases hf : p.projects.filter (fun pr => pr.theme = th) = []
    · simp [contributionScoreOf, hf]
    · simp [contributionScoreOf, hf]

set_option maxRecDepth 4000 in
/-- Witness for C8 at the concrete two-author row: Alice's stored share is
`100 / 2 = 50`. -/
theorem contribution_share_and_score_witness :
    ∃ row ∈ rowsW, "Alice" ∈ parseResearchers (cellStr row.researchers)
      ∧ (50 : ℚ) = 100 / ((parseResearchers (cellStr row.researchers)).length : ℚ) := by
  have h := contribution_share_and_score.1 rowsW "Alice" profW
    (by with_unfolding_all rfl) ⟨"T", "Th", 2024, 50⟩ (by with_unfolding_all decide)
  simpa using h

/-! ## C7 -/

/-- Any researcher already present stays present across a dict update. -/
theorem lookup_isSome_insertProject_mono {acc : List (String × Profile)} {n' : String}
    (h : (acc.lookup n').isSome = true) (name : String) (row : GrantRow) (c : ℚ) :
    ((insertProject acc name row c).lookup n').isSome = true := by
  rw [lookup_insertProject]
  by_cases hn : n' = name
  · rw [if_pos hn]; rfl
  · rw [if_neg hn]; exact h

/-- The updated researcher is present after a dict update. -/
theorem lookup_isSome_insertProject_self (acc : List (String × Profile))
    (name : String) (row : GrantRow) (c : ℚ) :
    ((insertProject acc name row c).lookup name).isSome = true := by
  rw [lookup_insertProject, if_pos rfl]; rfl

/-- Presence is preserved by the fold over a row's researchers. -/
theorem lookup_isSome_foldl_insert_mono (row : GrantRow) (c : ℚ) :
    ∀ (names : List String) (acc : List (String × Profile)) (n' : String),
      (acc.lookup n').isSome = true →
      (((names.foldl (fun ps nm => insertProject ps nm row c) acc)).lookup n').isSome = true := by
  intro names
  induction names with
  | nil => intro acc n' h; exact h
  | cons nm rest ih =>
    intro acc n' h
    exact ih _ _ (lookup_isSome_insertProject_mono h nm row c)

/-- Every name in the folded researcher list is present afterwards. -/
theorem lookup_isSome_foldl_insert_of_mem (row : GrantRow) (c : ℚ) :
    ∀ (names : List String) (acc : List (String × Profile)) (name : String),
      name ∈ names →
      (((names.foldl (fun ps nm => insertProject ps nm row c) acc)).lookup name).isSome = true := by
  intro names
  induction names with
  | nil => intro acc name h; cases h
  | cons nm rest ih =>
    intro acc name h
    rcases List.mem_cons.mp h with heq | hmem
    · subst heq
      exact lookup_isSome_foldl_insert_mono row c rest _ name
        (lookup_isSome_insertProject_self acc name row c)
    · exact ih _ name hmem

/-- Presence is preserved by processing one row. -/
theorem lookup_isSome_processRow_mono {acc : List (String × Profile)} {n' : String}
    (h : (acc.lookup n').isSome = true) (row : GrantRow) :
    ((processRow acc row).lookup n').isSome = true :=
  lookup_isSome_foldl_insert_mono row _ (parseResearchers (cellStr row.researchers)) acc n' h

/-- Every researcher named in a row is present after processing it. -/
theorem lookup_isSome_processRow_of_mem {name : String} {row : GrantRow}
    (hname : name ∈ parseResearchers (cellStr row.researchers))
    (acc : List (String × Profile)) :
    ((processRow acc row).lookup name).isSome = true :=
  lookup_isSome_foldl_insert_of_mem row _ (parseResearchers (cellStr row.researchers))
    acc name hname

/-- Presence is preserved by the fold over the corpus rows. -/
theorem lookup_isSome_foldl_rows_mono :
    ∀ (rows' : List GrantRow) (acc : List (String × Profile)) (n' : String),
      (acc.lookup n').isSome = true →
      ((rows'.foldl processRow acc).lookup n').isSome = true := by
  intro rows'
  induction rows' with
  | nil => intro acc n' h; exact h
  | cons r rest ih =>
    intro acc n' h
    exact ih _ _ (lookup_isSome_processRow_mono h r)

/-- Every researcher named in any processed row is present after the fold. -/
theorem lookup_isSome_foldl_rows_of_mem :
    ∀ (rows' : List GrantRow) (acc : List (String × Profile)) (row : GrantRow)
      (name : String), row ∈ rows' →
      name ∈ parseResearchers (cellStr row.researchers) →
      ((rows'.foldl processRow acc).lookup name).isSome = true := by
  intro rows'
  induction rows' with
  | nil => intro acc row name h; cases h
  | cons r rest ih =>
    intro acc row name hrow hname
    rcases List.mem_cons.mp hrow with heq | hmem
    · subst heq
      exact lookup_isSome_foldl_rows_mono rest _ name
        (lookup_isSome_processRow_of_mem hname acc)
    · exact ih (processRow acc r) row name hmem hname


set_option maxRecDepth 8000 in
/-- Counterexample to C7: a row with a missing researchers field is not
skipped — loading it changes the built profiles, creating a researcher
literally named `"nan"` (the `str()` rendering of the missing cell). -/
theorem malformed_row_not_skipped :
    buildResearcherProfiles [rowGoodW, rowNanW] ≠ buildResearcherProfiles [rowGoodW]
    ∧ ((buildResearcherProfiles [rowGoodW, rowNanW]).lookup "nan").isSome = true := by
  constructor
  · intro h
    exact absurd h (by with_unfolding_all decide)
  · with_unfolding_all decide

/-- C7 amended: `_build_researcher_profiles` skips no row and never aborts:
every row — malformed or not — contributes all its parsed researcher names to
the profiles map (a missing researchers cell contributes the name `"nan"`),
so in particular every well-formed row still contributes. -/
theorem every_row_contributes_profiles (rows : List GrantRow) (row : GrantRow)
    (name : String) (hrow : row ∈ rows)
    (hname : name ∈ parseResearchers (cellStr row.researchers)) :
    ((buildResearcherProfiles rows).lookup name).isSome = true :=
  lookup_isSome_foldl_rows_of_mem rows [] row name hrow hname

set_option maxRecDepth 4000 in
/-- Witness for the amended C7: the missing-researchers row contributes the
profile keyed `"nan"`. -/
theorem every_row_contributes_profiles_witness :
    ((buildResearcherProfiles [rowGoodW, rowNanW]).lookup "nan").isSome = true :=
  every_row_contributes_profiles [rowGoodW, rowNanW] rowNanW "nan"
    (by with_unfolding_all decide) (by with_unfolding_all decide)

/-! ## C9 -/

/-- Folding `max` over zeros from zero stays zero. -/
theorem foldl_max_zero : ∀ (l : List ℚ) (a : ℚ), (∀ s ∈ l, s = 0) → a = 0 →
    l.foldl max a = 0 := by
  intro l
  induction l with
  | nil => intro a _ ha; exact ha
  | cons x xs ih =>
    intro a h ha
    have hx : x = 0 := h x (List.mem_cons_self x xs)
    rw [List.foldl_cons]
    exact ih _ (fun s hs => h s (List.mem_cons_of_mem x hs)) (by rw [hx, ha]; simp)

/-- The python max of an all-zero similarity list is zero. -/
theorem listMaxQ_zero (l : List ℚ) (h : ∀ s ∈ l, s = 0) : listMaxQ l = 0 := by
  cases l with
  | nil => rfl
  | cons x xs =>
    rw [listMaxQ]
    exact foldl_max_zero xs x (fun s hs => h s (List.mem_cons_of_mem x hs))
      (h x (List.mem_cons_self x xs))

/-- When every similarity is zero and no title string-normalises equal to the
input, the loop keeps an all-zero similarity list, zero running maximum, and
no near-duplicate flag. -/
theorem simLoop_zero (sim : String → String → ℚ) (idx : List String) (k : String) :
    ∀ (ts : List String), (∀ t ∈ ts, sim k t = 0) →
      (∀ t ∈ ts, normalizeTitle k ≠ normalizeTitle t) →
      ∀ (sims : List ℚ) (m : ℚ) (ex : Bool), (∀ s ∈ sims, s = 0) → m = 0 → ex = false →
        (∀ s ∈ (simLoop sim idx k ts (sims, m, ex)).1, s = 0)
        ∧ (simLoop sim idx k ts (sims, m, ex)).2.1 = 0
        ∧ (simLoop sim idx k ts (sims, m, ex)).2.2 = false := by
  intro ts
  induction ts with
  | nil =>
    intro _ _ sims m ex hs hm hex
    exact ⟨hs, hm, hex⟩
  | cons t rest ih =>
    intro hz hn sims m ex hs hm hex
    have hzt : sim k t = 0 := hz t (List.mem_cons_self t rest)
    have hnt : normalizeTitle k ≠ normalizeTitle t := hn t (List.mem_cons_self t rest)
    have hzr : ∀ x ∈ rest, sim k x = 0 := fun x hx => hz x (List.mem_cons_of_mem t hx)
    have hnr : ∀ x ∈ rest, normalizeTitle k ≠ normalizeTitle x :=
      fun x hx => hn x (List.mem_cons_of_mem t hx)
    have hmatch : (isExactMatch sim k t (17 / 20)).1 = false := by
      unfold isExactMatch
      rw [if_neg hnt, if_neg (by rw [ge_iff_le, hzt]; norm_num)]
    by_cases hidx : t ∈ idx
    · simp only [simLoop, if_pos hidx, hmatch, Bool.false_eq_true, if_false]
      refine ih hzr hnr (sims ++ [sim k t]) m ex ?_ hm hex
      intro s hsm
      rcases List.mem_append.mp hsm with hsm | hsm
      · exact hs s hsm
      · rw [List.mem_singleton.mp hsm, hzt]
    · simp only [simLoop, if_neg hidx]
      exact ih hzr hnr sims m ex hs hm hex

/-- When every similarity is zero and no historical title string-normalises
equal to the input title, the keyword component is zero. -/
theorem keywordScoreOf_zero (sim : String → String → ℚ) (idx : List String)
    (k : String) (ts : List String)
    (hz : ∀ t ∈ ts, sim k t = 0)
    (hn : ∀ t ∈ ts, normalizeTitle k ≠ normalizeTitle t) :
    keywordScoreOf sim idx k ts = 0 := by
  by_cases hg : k ≠ "" ∧ ts ≠ []
  · obtain ⟨h1, h2, h3⟩ :=
      simLoop_zero sim idx k ts hz hn [] 0 false (by simp) rfl rfl
    have hm : (if (simLoop sim idx k ts ([], 0, false)).1 ≠ [] then
          max (simLoop sim idx k ts ([], 0, false)).2.1
            (listMaxQ (simLoop sim idx k ts ([], 0, false)).1)
        else (simLoop sim idx k ts ([], 0, false)).2.1) = 0 := by
      split
      · rw [h2, listMaxQ_zero _ h1]
        simp
      · exact h2
    rw [keywordScoreOf, if_pos hg]
    simp only [hm, h3, Bool.false_eq_true, if_false]
    norm_num
  · rw [keywordScoreOf, if_neg hg]


/-- Counterexample to C9: with the all-zero-vector input title `"the"` and a
researcher whose history contains the identical title, the keyword component
is `200`, not `0` — the exact-string near-duplicate path fires even though
every cosine similarity is zero. -/
theorem zero_vector_title_keyword_not_zero :
    (calculateResearcherScore simZeroW ["the"] 2026 [("Ann", profC9)]
        "Ann" "Quantum" "the").2.keywordScore = 200
    ∧ ¬((calculateResearcherScore simZeroW ["the"] 2026 [("Ann", profC9)]
        "Ann" "Quantum" "the").2.keywordScore = 0) := by
  constructor
  · with_unfolding_all decide
  · with_unfolding_all decide

/-- C9 amended: an input title that vectorizes to all zeros is never an error
and contributes no keyword score, except through the exact-string fast path:
the empty title always gets keyword 0, and a zero-vector title gets keyword 0
whenever no historical title string-normalises equal to it, in which case the
total is exactly theme + contribution + recency. -/
theorem zero_vector_title_scores_without_keyword :
    (∀ (sim : String → String → ℚ) (idx : List String) (y : Int)
        (profiles : List (String × Profile)) (r th : String),
        (calculateResearcherScore sim idx y profiles r th "").2.keywordScore = 0)
    ∧ (∀ (sim : String → String → ℚ) (idx : List String) (y : Int)
        (profiles : List (String × Profile)) (r th k : String) (p : Profile),
        profiles.lookup r = some p →
        (∀ t ∈ p.titles, sim k t = 0) →
        (∀ t ∈ p.titles, normalizeTitle k ≠ normalizeTitle t) →
        (calculateResearcherScore sim idx y profiles r th k).2.keywordScore = 0
        ∧ (calculateResearcherScore sim idx y profiles r th k).1
            = (calculateResearcherScore sim idx y profiles r th k).2.themeScore
              + (calculateResearcherScore sim idx y profiles r th k).2.contributionScore
              + (calculateResearcherScore sim idx y profiles r th k).2.recencyScore) := by
  constructor
  · intro sim idx y profiles r th
    cases hp : profiles.lookup r with
    | none => simp [calculateResearcherScore, hp]
    | some p =>
      rw [calcScore_lookup_some sim idx y profiles r th "" p hp]
      show keywordScoreOf sim idx "" p.titles = 0
      rw [keywordScoreOf, if_neg (fun h => h.1 rfl)]
  · intro sim idx y profiles r th k p hp hz hn
    have hkw0 : keywordScoreOf sim idx k p.titles = 0 := keywordScoreOf_zero sim idx k p.titles hz hn
    rw [calcScore_lookup_some sim idx y profiles r th k p hp]
    refine ⟨hkw0, ?_⟩
    show _ + keywordScoreOf sim idx k p.titles + _ + _ = _ + _ + _
    rw [hkw0, add_zero]

/-- Witness for the amended C9: the all-zero similarity with a fresh query
title gives keyword 0 and total = theme + contribution + recency. -/
theorem zero_vector_title_scores_without_keyword_witness :
    (calculateResearcherScore simZeroW ["the"] 2026 [("Ann", profC9)]
        "Ann" "Quantum" "query").2.keywordScore = 0
    ∧ (calculateResearcherScore simZeroW ["the"] 2026 [("Ann", profC9)]
        "Ann" "Quantum" "query").1
        = (calculateResearcherScore simZeroW ["the"] 2026 [("Ann", profC9)]
            "Ann" "Quantum" "query").2.themeScore
          + (calculateResearcherScore simZeroW ["the"] 2026 [("Ann", profC9)]
              "Ann" "Quantum" "query").2.contributionScore
          + (calculateResearcherScore simZeroW ["the"] 2026 [("Ann", profC9)]
              "Ann" "Quantum" "query").2.recencyScore :=
  zero_vector_title_scores_without_keyword.2 simZeroW ["the"] 2026 [("Ann", profC9)]
    "Ann" "Quantum" "query" profC9 (by with_unfolding_all rfl)
    (by with_unfolding_all decide) (by with_unfolding_all decide)

/-! ## C6 -/


/-- Counterexample to C6: when the similarity primitive raises for the one
researcher, `recommend` does not catch it and score the researcher 0 — the
error propagates to the caller. -/
theorem recommendE_propagates_similarity_error :
    recommendE simFailE (fun _ => []) engineC6 "Fresh Query" (some "Quantum") 5
      = Except.error () := by
  with_unfolding_all rfl

/-- Refinement: the exact-match check never raises (its handler swallows the
similarity error), so when the similarity primitive is total, the fallible
pipeline returns exactly the pure pipeline's answer. -/
theorem isExactMatchE_of_total {simE : String → String → Except Unit ℚ}
    {sim : String → String → ℚ} (h : ∀ a b, simE a b = Except.ok (sim a b))
    (a b : String) (threshold : ℚ) :
    isExactMatchE simE a b threshold = isExactMatch sim a b threshold := by
  rw [isExactMatchE, isExactMatch, h a b]

/-- The fallible title loop refines the pure title loop under a total
similarity primitive. -/
theorem simLoopE_of_total {simE : String → String → Except Unit ℚ}
    {sim : String → String → ℚ} (h : ∀ a b, simE a b = Except.ok (sim a b))
    (idx : List String) (k : String) :
    ∀ (ts : List String) (st : List ℚ × ℚ × Bool),
      simLoopE simE idx k ts st = Except.ok (simLoop sim idx k ts st) := by
  intro ts
  induction ts with
  | nil => intro st; rfl
  | cons t rest ih =>
    intro st
    obtain ⟨sims, m, ex⟩ := st
    by_cases hidx : t ∈ idx
    · simp only [simLoopE, simLoop, if_pos hidx, h k t, isExactMatchE_of_total h, ih]
      split <;> rfl
    · simp only [simLoopE, simLoop, if_neg hidx, ih]

/-- The fallible keyword component refines the pure one under a total
similarity primitive. -/
theorem keywordScoreOfE_of_total {simE : String → String → Except Unit ℚ}
    {sim : String → String → ℚ} (h : ∀ a b, simE a b = Except.ok (sim a b))
    (idx : List String) (k : String) (ts : List String) :
    keywordScoreOfE simE idx k ts = Except.ok (keywordScoreOf sim idx k ts) := by
  rw [keywordScoreOfE, keywordScoreOf]
  by_cases hg : k ≠ "" ∧ ts ≠ []
  · rw [if_pos hg, if_pos hg, simLoopE_of_total h idx k ts ([], 0, false)]
  · rw [if_neg hg, if_neg hg]

/-- The fallible researcher scoring refines the pure one under a total
similarity primitive. -/
theorem calculateResearcherScoreE_of_total {simE : String → String → Except Unit ℚ}
    {sim : String → String → ℚ} (h : ∀ a b, simE a b = Except.ok (sim a b))
    (idx : List String) (y : Int) (profiles : List (String × Profile))
    (r th k : String) :
    calculateResearcherScoreE simE idx y profiles r th k
      = Except.ok (calculateResearcherScore sim idx y profiles r th k) := by
  cases hp : profiles.lookup r with
  | none =>
    rw [calculateResearcherScoreE, calculateResearcherScore, hp]
  | some p =>
    rw [calculateResearcherScoreE, hp]
    dsimp only
    rw [keywordScoreOfE_of_total h idx k p.titles,
      calcScore_lookup_some sim idx y profiles r th k p hp]

/-- The fallible candidate loop refines the pure one under a total similarity
primitive. -/
theorem scoreCandidatesAuxE_of_total {simE : String → String → Except Unit ℚ}
    {sim : String → String → ℚ} (h : ∀ a b, simE a b = Except.ok (sim a b))
    (idx : List String) (y : Int) (allP : List (String × Profile)) (th k : String) :
    ∀ entries : List (String × Profile),
      scoreCandidatesAuxE simE idx y allP th k entries
        = Except.ok (scoreCandidatesAux sim idx y allP entries th k) := by
  intro entries
  induction entries with
  | nil => rfl
  | cons pr rest ih =>
    rw [scoreCandidatesAuxE, calculateResearcherScoreE_of_total h idx y allP pr.1 th k, ih]
    dsimp only [scoreCandidatesAux, List.filterMap_cons]
    by_cases hpos : (calculateResearcherScore sim idx y allP pr.1 th k).1 > 0
    · rw [if_pos hpos, if_pos hpos]
    · rw [if_neg hpos, if_neg hpos]

/-- C6 amended: the near-duplicate check catches a raising similarity
primitive locally (reporting no match, score 0 — unless the exact-string fast
path already matched), but the direct cosine similarity in researcher scoring
is unguarded, so `recommend` is exception-free exactly when the similarity
primitive is: for every total primitive the fallible pipeline returns the
pure pipeline's answer. -/
theorem similarity_error_containment_refinement :
    (∀ (a b : String) (threshold : ℚ),
        isExactMatchE simFailE a b threshold
          = (if normalizeTitle a = normalizeTitle b then (true, 1) else (false, 0)))
    ∧ (∀ (simE : String → String → Except Unit ℚ) (sim : String → String → ℚ),
        (∀ a b, simE a b = Except.ok (sim a b)) →
        ∀ (predict : String → List String) (engine : Engine) (title : String)
          (th? : Option String) (n : Nat),
          recommendE simE predict engine title th? n
            = Except.ok (recommend sim predict engine title th? n)) := by
  constructor
  · intro a b threshold
    rw [isExactMatchE]
    by_cases hn : normalizeTitle a = normalizeTitle b
    · rw [if_pos hn, if_pos hn]
    · rw [if_neg hn, if_neg hn]
      rfl
  · intro simE sim h predict engine title th? n
    rw [recommendE,
      scoreCandidatesAuxE_of_total h engine.titleIndex engine.currentYear engine.profiles
        (resolveTheme predict title th?) title engine.profiles]
    rfl

/-- Witness for the amended C6: a concrete total similarity primitive makes
the fallible pipeline return the pure result. -/
theorem similarity_error_containment_refinement_witness :
    recommendE (fun a b => Except.ok (simZeroW a b)) predW engineC6 "Fresh Query"
        (some "Quantum") 5
      = Except.ok (recommend simZeroW predW engineC6 "Fresh Query" (some "Quantum") 5) :=
  similarity_error_containment_refinement.2 (fun a b => Except.ok (simZeroW a b)) simZeroW
    (fun _ _ => rfl) predW engineC6 "Fresh Query" (some "Quantum") 5

/-! ## C5 -/

/-- C5: the `recommend`-side half of the empty-corpus behaviour — over zero
grant records the profiles map is empty, and every `recommend` call returns an
empty recommendations list with `total_researchers_scored = 0`.  (The
construction-side half is decided by the external vectorizer fit at
`recommend_researchers.py:119`, outside this embedding.) -/
theorem empty_corpus_recommend_zero :
    buildResearcherProfiles [] = []
    ∧ ∀ (sim : String → String → ℚ) (predict : String → List String) (y : Int)
        (title : String) (th? : Option String) (n : Nat),
        recommend sim predict (mkEngine [] y) title th? n
          = ⟨title, resolveTheme predict title th?, [], 0⟩ := by
  constructor
  · rfl
  · intro sim predict y title th? n
    simp [recommend, rankCandidates, scoreCandidates, scoreCandidatesAux, mkEngine,
      buildResearcherProfiles, List.take_nil]
